import Mathlib

/-
  Verification development for the Terraform state backend stub
  (src/main.py): a single state document and a single lock record,
  both held in memory and mirrored to one durable file each, exposed
  through GET/POST/DELETE on /tfstate and LOCK/UNLOCK on /lock.

  The embedding models parsed JSON values (the output of json.loads),
  the pair of in-memory globals (state_store, lock_info), the two
  durable files, and each request handler as a pure function from the
  request's parsed inputs and the server state to an HTTP outcome and
  a successor state.  Durable writes may fail; a Bool parameter tells
  whether the disk operation succeeds, and a failed write surfaces as
  an unhandled Python exception (HTTP 500).
-/

namespace TfStub

/-- JSON values as produced by json.loads.  Numbers are modelled as
integers (no claim depends on non-integral numerics); objects are
association lists, which json.loads always produces with unique keys. -/
inductive Json where
  | null : Json
  | bool : Bool → Json
  | num : Int → Json
  | str : String → Json
  | arr : List Json → Json
  | obj : List (String × Json) → Json

mutual

/-- Size of a JSON value: one unit per node and per list link.  Used
as the fuel bound for the Python equality test below. -/
def jsize : Json → Nat
  | Json.null => 1
  | Json.bool _ => 1
  | Json.num _ => 1
  | Json.str _ => 1
  | Json.arr xs => jsizeList xs + 1
  | Json.obj fs => jsizeFields fs + 1

/-- Size of a list of JSON values. -/
def jsizeList : List Json → Nat
  | [] => 1
  | x :: rest => jsize x + jsizeList rest + 1

/-- Size of a JSON object's field list. -/
def jsizeFields : List (String × Json) → Nat
  | [] => 1
  | (_, v) :: rest => jsize v + jsizeFields rest + 1

end

/-- First-match lookup in an object's field list (Python dict indexing;
parsed dicts have unique keys, so first-match agrees with the dict). -/
def lookupField : List (String × Json) → String → Option Json
  | [], _ => none
  | (k, v) :: rest, key => if k = key then some v else lookupField rest key

/-- Assigning a parsed JSON value to an Optional[...] global: the JSON
null parses to Python None, so storing it stores absence. -/
def toStore : Json → Option Json
  | Json.null => none
  | j => some j

/-- Whether a JSON value is an object (a Python dict after parsing). -/
def isObj : Json → Bool
  | Json.obj _ => true
  | _ => false

/-- Python value.get("key") on a parsed JSON value: only dicts have
.get, so any non-object value raises AttributeError (the error case).
A field holding JSON null is Python None, indistinguishable from a
missing key, so both collapse to none. -/
def pyGet : Json → String → Except Unit (Option Json)
  | Json.obj fs, key =>
      match lookupField fs key with
      | some Json.null => Except.ok none
      | some v => Except.ok (some v)
      | none => Except.ok none
  | _, _ => Except.error ()

/-- Python equality between an optional header string (request header,
str or None) and an optional parsed JSON value (a dict.get result).
None equals None; a string equals only the same string. -/
def pyEqStrJson : Option String → Option Json → Bool
  | none, none => true
  | some s, some (Json.str t) => s == t
  | _, _ => false

mutual

/-- Python == on parsed JSON values, fuel-indexed for totality.  The
fuel only bounds the recursion depth; pyJsonEq below supplies fuel
strictly larger than any path the comparison of its arguments can
take, so the fuel-exhausted false branch is never the decisive one.
Python booleans equal the integers 1/0, lists compare pointwise, and
dicts compare by key lookup, irrespective of insertion order. -/
def pyJsonEqD : Nat → Json → Json → Bool
  | 0, _, _ => false
  | Nat.succ _, Json.null, Json.null => true
  | Nat.succ _, Json.bool x, Json.bool y => x == y
  | Nat.succ _, Json.bool x, Json.num m => (if x then (1 : Int) else 0) == m
  | Nat.succ _, Json.num m, Json.bool x => m == (if x then (1 : Int) else 0)
  | Nat.succ _, Json.num x, Json.num y => x == y
  | Nat.succ _, Json.str x, Json.str y => x == y
  | Nat.succ n, Json.arr xs, Json.arr ys => pyArrEqD n xs ys
  | Nat.succ n, Json.obj xs, Json.obj ys => pyObjSubD n xs ys && pyObjSubD n ys xs
  | Nat.succ _, _, _ => false

/-- Pointwise Python equality of two lists (fuel-indexed). -/
def pyArrEqD : Nat → List Json → List Json → Bool
  | _, [], [] => true
  | Nat.succ n, x :: xs, y :: ys => pyJsonEqD n x y && pyArrEqD n xs ys
  | _, _, _ => false

/-- Every field of the first list is present in the second with a
Python-equal value (fuel-indexed); dict equality is this in both
directions. -/
def pyObjSubD : Nat → List (String × Json) → List (String × Json) → Bool
  | _, [], _ => true
  | Nat.succ n, (k, v) :: rest, ys =>
      (match lookupField ys k with
       | some w => pyJsonEqD n v w
       | none => false) && pyObjSubD n rest ys
  | 0, _ :: _, _ => false

end

/-- Python == on parsed JSON values. -/
def pyJsonEq (a b : Json) : Bool :=
  pyJsonEqD (jsize a + jsize b + 1) a b

/-- Python == / != between two dict.get results (value or None). -/
def pyEqOpt : Option Json → Option Json → Bool
  | none, none => true
  | some a, some b => pyJsonEq a b
  | _, _ => false

mutual

/-- json.dumps with the default separators, as used in the 409 detail
string State is locked: \x7b...\x7d. -/
def dumps : Json → String
  | Json.null => "null"
  | Json.bool true => "true"
  | Json.bool false => "false"
  | Json.num n => toString n
  | Json.str s => "\"" ++ s ++ "\""
  | Json.arr xs => "[" ++ dumpsArr xs ++ "]"
  | Json.obj fs => "\x7b" ++ dumpsObj fs ++ "\x7d"

/-- Comma-separated rendering of a JSON array's elements. -/
def dumpsArr : List Json → String
  | [] => ""
  | [x] => dumps x
  | x :: rest => dumps x ++ ", " ++ dumpsArr rest

/-- Comma-separated rendering of a JSON object's fields. -/
def dumpsObj : List (String × Json) → String
  | [] => ""
  | [(k, v)] => "\"" ++ k ++ "\": " ++ dumps v
  | (k, v) :: rest => "\"" ++ k ++ "\": " ++ dumps v ++ ", " ++ dumpsObj rest

end

/-- Contents of one durable file: a well-formed serialized JSON value,
or unreadable data (truncated write, I/O damage). -/
inductive FileData where
  | valid : Json → FileData
  | corrupt : FileData

/-- The server's mutable state: the two in-memory globals state_store
and lock_info, and the two durable files STATE_FILE and LOCK_FILE
(none = the file does not exist). -/
structure ServerState where
  state_store : Option Json
  lock_info : Option Json
  state_file : Option FileData
  lock_file : Option FileData

/-- Result of one request: an empty 2xx Response, a JSONResponse with
a status code and body, a raised HTTPException with status and detail,
or an unhandled Python exception propagating out of the handler
(FastAPI turns it into a 500 server error). -/
inductive Outcome where
  | response : Nat → Outcome
  | jsonResponse : Nat → Json → Outcome
  | httpException : Nat → String → Outcome
  | pythonError : Outcome

/-- load_state: if STATE_FILE exists, parse it into state_store,
swallowing JSONDecodeError/IOError by storing None; a file holding the
JSON value null parses to Python None (hence toStore); if the file
does not exist, the global keeps its previous value (no assignment
runs). -/
def load_state (file : Option FileData) (cur : Option Json) : Option Json :=
  match file with
  | none => cur
  | some (FileData.valid j) => toStore j
  | some FileData.corrupt => none

/-- load_lock: same contract as load_state, for LOCK_FILE/lock_info. -/
def load_lock (file : Option FileData) (cur : Option Json) : Option Json :=
  match file with
  | none => cur
  | some (FileData.valid j) => toStore j
  | some FileData.corrupt => none

/-- save_state: if state_store is None, unlink STATE_FILE when it
exists; otherwise serialize state_store into the file.  The Bool
argument tells whether the disk operation succeeds; the result is
(completed without exception, resulting file).  A failed unlink leaves
the file, a failed write leaves it truncated/corrupt; when there is
nothing to do no disk operation runs and nothing can fail. -/
def save_state (st : Option Json) (file : Option FileData) (writeOk : Bool) :
    Bool × Option FileData :=
  match st, file with
  | none, none => (true, none)
  | none, some f => if writeOk then (true, none) else (false, some f)
  | some j, _ => if writeOk then (true, some (FileData.valid j)) else (false, some FileData.corrupt)

/-- save_lock: same contract as save_state, for lock_info/LOCK_FILE. -/
def save_lock (li : Option Json) (file : Option FileData) (writeOk : Bool) :
    Bool × Option FileData :=
  match li, file with
  | none, none => (true, none)
  | none, some f => if writeOk then (true, none) else (false, some f)
  | some j, _ => if writeOk then (true, some (FileData.valid j)) else (false, some FileData.corrupt)

/-- GET /tfstate: 404 when no state exists, otherwise the document. -/
def get_state (σ : ServerState) : Outcome :=
  match σ.state_store with
  | none => Outcome.httpException 404 "State not found"
  | some j => Outcome.jsonResponse 200 j

/-- The tail of POST /tfstate after the lock check: parse the body
(400 on malformed JSON), assign state_store, then save_state; an I/O
failure in save_state propagates after the assignment has happened. -/
def update_state_body (body : Option Json) (writeOk : Bool) (σ : ServerState) :
    Outcome × ServerState :=
  match body with
  | none => (Outcome.httpException 400 "Invalid JSON", σ)
  | some j =>
      if (save_state (toStore j) σ.state_file writeOk).1 then
        (Outcome.response 200,
          { σ with state_store := toStore j,
                   state_file := (save_state (toStore j) σ.state_file writeOk).2 })
      else
        (Outcome.pythonError,
          { σ with state_store := toStore j,
                   state_file := (save_state (toStore j) σ.state_file writeOk).2 })

/-- POST /tfstate: read the Lock-ID header; when lock_info is held,
compare it with lock_info.get("ID") (AttributeError when lock_info is
not a dict) and raise 409 on mismatch; otherwise run the body. -/
def update_state (lock_id : Option String) (body : Option Json) (writeOk : Bool)
    (σ : ServerState) : Outcome × ServerState :=
  match σ.lock_info with
  | some l =>
      match pyGet l "ID" with
      | Except.error _ => (Outcome.pythonError, σ)
      | Except.ok held =>
          if pyEqStrJson lock_id held then update_state_body body writeOk σ
          else (Outcome.httpException 409 ("State is locked: " ++ dumps l), σ)
  | none => update_state_body body writeOk σ

/-- The tail of DELETE /tfstate after the lock check: clear
state_store, then save_state (which unlinks the file). -/
def delete_state_body (writeOk : Bool) (σ : ServerState) : Outcome × ServerState :=
  if (save_state none σ.state_file writeOk).1 then
    (Outcome.response 200,
      { σ with state_store := none,
               state_file := (save_state none σ.state_file writeOk).2 })
  else
    (Outcome.pythonError,
      { σ with state_store := none,
               state_file := (save_state none σ.state_file writeOk).2 })

/-- DELETE /tfstate: same lock check as POST, then clear and save. -/
def delete_state (lock_id : Option String) (writeOk : Bool) (σ : ServerState) :
    Outcome × ServerState :=
  match σ.lock_info with
  | some l =>
      match pyGet l "ID" with
      | Except.error _ => (Outcome.pythonError, σ)
      | Except.ok held =>
          if pyEqStrJson lock_id held then delete_state_body writeOk σ
          else (Outcome.httpException 409 ("State is locked: " ++ dumps l), σ)
  | none => delete_state_body writeOk σ

/-- The tail of LOCK /lock once acquisition is allowed: assign
lock_info := new_lock_info (a parsed null stores None) and save_lock. -/
def lock_state_store (nl : Json) (writeOk : Bool) (σ : ServerState) :
    Outcome × ServerState :=
  if (save_lock (toStore nl) σ.lock_file writeOk).1 then
    (Outcome.response 200,
      { σ with lock_info := toStore nl,
               lock_file := (save_lock (toStore nl) σ.lock_file writeOk).2 })
  else
    (Outcome.pythonError,
      { σ with lock_info := toStore nl,
               lock_file := (save_lock (toStore nl) σ.lock_file writeOk).2 })

/-- LOCK /lock: parse the body (400 on malformed JSON); when a lock is
held, compare lock_info.get("ID") with new_lock_info.get("ID") (left
to right, AttributeError on a non-dict) and answer 423 with the
current record on mismatch; otherwise store the candidate. -/
def lock_state (body : Option Json) (writeOk : Bool) (σ : ServerState) :
    Outcome × ServerState :=
  match body with
  | none => (Outcome.httpException 400 "Invalid JSON", σ)
  | some nl =>
      match σ.lock_info with
      | some cur =>
          match pyGet cur "ID" with
          | Except.error _ => (Outcome.pythonError, σ)
          | Except.ok curId =>
              match pyGet nl "ID" with
              | Except.error _ => (Outcome.pythonError, σ)
              | Except.ok newId =>
                  if pyEqOpt curId newId then lock_state_store nl writeOk σ
                  else (Outcome.jsonResponse 423 cur, σ)
      | none => lock_state_store nl writeOk σ

/-- The tail of UNLOCK /lock once release is allowed: clear lock_info
and save_lock (which unlinks LOCK_FILE). -/
def unlock_clear (writeOk : Bool) (σ : ServerState) : Outcome × ServerState :=
  if (save_lock none σ.lock_file writeOk).1 then
    (Outcome.response 200,
      { σ with lock_info := none,
               lock_file := (save_lock none σ.lock_file writeOk).2 })
  else
    (Outcome.pythonError,
      { σ with lock_info := none,
               lock_file := (save_lock none σ.lock_file writeOk).2 })

/-- UNLOCK /lock: parse the body (400 on malformed JSON); when a lock
is held, compare lock_info.get("ID") with unlock_info.get("ID") and
answer 409 with the fixed mismatch payload on mismatch; otherwise
clear the lock. -/
def unlock_state (body : Option Json) (writeOk : Bool) (σ : ServerState) :
    Outcome × ServerState :=
  match body with
  | none => (Outcome.httpException 400 "Invalid JSON", σ)
  | some ul =>
      match σ.lock_info with
      | some cur =>
          match pyGet cur "ID" with
          | Except.error _ => (Outcome.pythonError, σ)
          | Except.ok curId =>
              match pyGet ul "ID" with
              | Except.error _ => (Outcome.pythonError, σ)
              | Except.ok presId =>
                  if pyEqOpt curId presId then unlock_clear writeOk σ
                  else (Outcome.jsonResponse 409
                          (Json.obj [("error", Json.str "Lock ID mismatch")]), σ)
      | none => unlock_clear writeOk σ

/-- The lock check shared by POST and DELETE /tfstate (main.py lines
87-93 and 115-121), extracted as the spec's AuthorizeMutation: given
lock_info and the presented Lock-ID header, ok true means the mutation
proceeds, ok false means 409, error means AttributeError on a
non-dict lock_info. -/
def authorize_mutation (li : Option Json) (lock_id : Option String) :
    Except Unit Bool :=
  match li with
  | none => Except.ok true
  | some l =>
      match pyGet l "ID" with
      | Except.error _ => Except.error ()
      | Except.ok held => Except.ok (pyEqStrJson lock_id held)

/-- A lock slot is well formed when it is empty or holds a LockRecord
in the sense of the data model: a JSON object whose ID field is a
string. -/
def lockWF : Option Json → Prop
  | none => True
  | some l => ∃ s, pyGet l "ID" = Except.ok (some (Json.str s))

/-- The spec's authorization condition: no lock is held, or the
presented identifier equals the held record's ID. -/
def authCond (li : Option Json) (lock_id : Option String) : Prop :=
  li = none ∨
    ∃ l s, li = some l ∧ pyGet l "ID" = Except.ok (some (Json.str s)) ∧
      lock_id = some s

theorem save_state_true (st : Option Json) (f : Option FileData) :
    save_state st f true = (true, Option.map FileData.valid st) := by
  cases st <;> cases f <;> rfl

theorem save_lock_true (li : Option Json) (f : Option FileData) :
    save_lock li f true = (true, Option.map FileData.valid li) := by
  cases li <;> cases f <;> rfl

theorem pyEqStrJson_some_str (lid : Option String) (s : String) :
    pyEqStrJson lid (some (Json.str s)) = (lid == some s) := by
  cases lid <;> rfl

theorem pyEqOpt_str (a b : String) :
    pyEqOpt (some (Json.str a)) (some (Json.str b)) = (a == b) := rfl

theorem authorize_mutation_wf (l : Json) (s : String)
    (hg : pyGet l "ID" = Except.ok (some (Json.str s))) (lid : Option String) :
    authorize_mutation (some l) lid = Except.ok (lid == some s) := by
  simp [authorize_mutation, hg, pyEqStrJson_some_str]

theorem authCond_iff (li : Option Json) (lid : Option String) (hwf : lockWF li) :
    authCond li lid ↔ authorize_mutation li lid = Except.ok true := by
  cases li with
  | none => simp [authCond, authorize_mutation]
  | some l =>
    obtain ⟨s, hg⟩ := hwf
    rw [authorize_mutation_wf l s hg lid]
    constructor
    · rintro (h | ⟨l2, s2, hl2, hg2, hlid⟩)
      · cases h
      · cases hl2
        rw [hg] at hg2
        cases hg2
        simp [hlid]
    · intro h
      right
      refine ⟨l, s, rfl, hg, ?_⟩
      have hb : (lid == some s) = true := by
        have := Except.ok.inj h
        exact this
      cases lid with
      | none => cases hb
      | some t =>
        have ht : t = s := by
          have : (t == s) = true := hb
          exact eq_of_beq this
        rw [ht]

theorem update_state_auth (σ : ServerState) (lid : Option String)
    (body : Option Json) (w : Bool)
    (h : authorize_mutation σ.lock_info lid = Except.ok true) :
    update_state lid body w σ = update_state_body body w σ := by
  cases hli : σ.lock_info with
  | none => simp [update_state, hli]
  | some l =>
    rw [hli] at h
    cases hg : pyGet l "ID" with
    | error e => rw [authorize_mutation, hg] at h; cases h
    | ok held =>
      rw [authorize_mutation, hg] at h
      have hb := Except.ok.inj h
      simp [update_state, hli, hg, hb]

theorem update_state_unauth (σ : ServerState) (lid : Option String)
    (body : Option Json) (w : Bool) (l : Json) (hli : σ.lock_info = some l)
    (h : authorize_mutation σ.lock_info lid = Except.ok false) :
    update_state lid body w σ =
      (Outcome.httpException 409 ("State is locked: " ++ dumps l), σ) := by
  rw [hli] at h
  cases hg : pyGet l "ID" with
  | error e => rw [authorize_mutation, hg] at h; cases h
  | ok held =>
    rw [authorize_mutation, hg] at h
    have hb := Except.ok.inj h
    simp [update_state, hli, hg, hb]

theorem delete_state_auth (σ : ServerState) (lid : Option String) (w : Bool)
    (h : authorize_mutation σ.lock_info lid = Except.ok true) :
    delete_state lid w σ = delete_state_body w σ := by
  cases hli : σ.lock_info with
  | none => simp [delete_state, hli]
  | some l =>
    rw [hli] at h
    cases hg : pyGet l "ID" with
    | error e => rw [authorize_mutation, hg] at h; cases h
    | ok held =>
      rw [authorize_mutation, hg] at h
      have hb := Except.ok.inj h
      simp [delete_state, hli, hg, hb]

theorem delete_state_unauth (σ : ServerState) (lid : Option String) (w : Bool)
    (l : Json) (hli : σ.lock_info = some l)
    (h : authorize_mutation σ.lock_info lid = Except.ok false) :
    delete_state lid w σ =
      (Outcome.httpException 409 ("State is locked: " ++ dumps l), σ) := by
  rw [hli] at h
  cases hg : pyGet l "ID" with
  | error e => rw [authorize_mutation, hg] at h; cases h
  | ok held =>
    rw [authorize_mutation, hg] at h
    have hb := Except.ok.inj h
    simp [delete_state, hli, hg, hb]

theorem update_state_body_ok (j : Json) (σ : ServerState) :
    update_state_body (some j) true σ =
      (Outcome.response 200,
        { σ with state_store := toStore j,
                 state_file := Option.map FileData.valid (toStore j) }) := by
  simp [update_state_body, save_state_true]

theorem delete_state_body_ok (σ : ServerState) :
    delete_state_body true σ =
      (Outcome.response 200, { σ with state_store := none, state_file := none }) := by
  simp [delete_state_body, save_state_true]

theorem lockWF_some (l : Json) :
    lockWF (some l) = ∃ s, pyGet l "ID" = Except.ok (some (Json.str s)) := rfl

theorem toStore_ne_null (j : Json) (h : j ≠ Json.null) : toStore j = some j := by
  cases j with
  | null => exact absurd rfl h
  | bool b => rfl
  | num n => rfl
  | str s => rfl
  | arr xs => rfl
  | obj fs => rfl

theorem toStore_obj (j : Json) (h : isObj j = true) : toStore j = some j := by
  cases j <;> first | rfl | exact absurd h (by simp [isObj])

theorem pyGet_nonobj (j : Json) (h : isObj j = false) (k : String) :
    pyGet j k = Except.error () := by
  cases j <;> first | rfl | exact absurd h (by simp [isObj])

theorem pyGet_ok_isObj (j : Json) (k : String) (r : Option Json)
    (h : pyGet j k = Except.ok r) : isObj j = true := by
  cases j <;> first | rfl | cases h

theorem save_state_fail_write (j : Json) (f : Option FileData) :
    save_state (some j) f false = (false, some FileData.corrupt) := by
  cases f <;> rfl

theorem save_state_fail_unlink (f : FileData) :
    save_state none (some f) false = (false, some f) := rfl

theorem lock_state_store_ok (nl : Json) (σ : ServerState)
    (hn : toStore nl = some nl) :
    lock_state_store nl true σ =
      (Outcome.response 200,
        { σ with lock_info := some nl, lock_file := some (FileData.valid nl) }) := by
  simp [lock_state_store, hn, save_lock_true]

theorem unlock_clear_ok (σ : ServerState) :
    unlock_clear true σ =
      (Outcome.response 200, { σ with lock_info := none, lock_file := none }) := by
  simp [unlock_clear, save_lock_true]

/-- Conclusion of claim C1 for one state and one pair of Put/Delete
calls: the Put (with document D) and the Delete succeed with 200 and
the replaced/cleared document exactly when the authorization condition
holds, and otherwise both return the 409 locked error, embedding the
held record, with the whole state unchanged. -/
def C1concl (σ : ServerState) (lid : Option String) (D : Json) : Prop :=
  (((update_state lid (some D) true σ).1 = Outcome.response 200 ∧
      (update_state lid (some D) true σ).2.state_store = toStore D) ↔
    authCond σ.lock_info lid) ∧
  (((delete_state lid true σ).1 = Outcome.response 200 ∧
      (delete_state lid true σ).2.state_store = none) ↔
    authCond σ.lock_info lid) ∧
  (¬ authCond σ.lock_info lid →
    ∃ l, σ.lock_info = some l ∧
      update_state lid (some D) true σ =
        (Outcome.httpException 409 ("State is locked: " ++ dumps l), σ) ∧
      delete_state lid true σ =
        (Outcome.httpException 409 ("State is locked: " ++ dumps l), σ))

/-- C1: for every state whose lock slot holds a well-formed LockRecord
(or none) and every Put or Delete call, the mutation is permitted —
document replaced/cleared and 200 returned — iff no lock is held or
the presented Lock-ID equals the held record's ID; otherwise the call
raises the 409 locked error and the state is unchanged. -/
theorem C1_mutation_lock_invariant (σ : ServerState) (hwf : lockWF σ.lock_info)
    (lid : Option String) (D : Json) : C1concl σ lid D := by
  cases ha : authorize_mutation σ.lock_info lid with
  | error e =>
    exfalso
    cases hli : σ.lock_info with
    | none => rw [hli] at ha; cases ha
    | some l =>
      rw [hli, lockWF_some] at hwf
      obtain ⟨s, hg⟩ := hwf
      rw [hli, authorize_mutation_wf l s hg] at ha
      cases ha
  | ok b =>
    cases b with
    | true =>
      have hc : authCond σ.lock_info lid := (authCond_iff _ _ hwf).2 ha
      have hu := update_state_auth σ lid (some D) true ha
      have hd := delete_state_auth σ lid true ha
      refine ⟨?_, ?_, fun hn => absurd hc hn⟩
      · rw [hu, update_state_body_ok]
        simp [hc]
      · rw [hd, delete_state_body_ok]
        simp [hc]
    | false =>
      have hnc : ¬ authCond σ.lock_info lid := by
        intro hc
        have h2 := (authCond_iff _ _ hwf).1 hc
        rw [ha] at h2
        cases Except.ok.inj h2
      cases hli : σ.lock_info with
      | none => rw [hli] at ha; cases Except.ok.inj ha
      | some l =>
        have hu := update_state_unauth σ lid (some D) true l hli ha
        have hd := delete_state_unauth σ lid true l hli ha
        refine ⟨?_, ?_, fun _ => ⟨l, hli, hu, hd⟩⟩
        · rw [hu]
          simp [hnc]
        · rw [hd]
          simp [hnc]

/-- A state holding the lock record with ID a, used to witness C1. -/
def C1wit : ServerState :=
  ⟨none, some (Json.obj [("ID", Json.str "a")]), none, none⟩

/-- Witness for C1: the theorem applied at a held lock with ID a and a
Put/Delete presenting Lock-ID b. -/
theorem C1_witness : C1concl C1wit (some "b") (Json.obj []) :=
  C1_mutation_lock_invariant C1wit ⟨"a", rfl⟩ (some "b") (Json.obj [])

/-- C2 counterexample: an unlocked Put of a one-field document whose
durable write fails does abort with a server error, but the in-memory
document has changed from absent to the new document — refuting the
claim that in-memory state changes only after the durable write has
completed successfully. -/
theorem C2_counterexample :
    (update_state none (some (Json.obj [("version", Json.num 4)])) false
        ⟨none, none, none, none⟩).1 = Outcome.pythonError ∧
    (update_state none (some (Json.obj [("version", Json.num 4)])) false
        ⟨none, none, none, none⟩).2.state_store =
      some (Json.obj [("version", Json.num 4)]) ∧
    ServerState.state_store ⟨none, none, none, none⟩ = none :=
  ⟨rfl, rfl, rfl⟩

/-- C2 as amended: on an authorized Put of a non-null document whose
durable write fails, and on an authorized Delete whose durable unlink
fails, the operation aborts with a server error, but the in-memory
document has already been updated (to the new document, resp. to
absence) before the durable write was attempted, so memory and the
durable record diverge. -/
theorem C2_write_failure_memory_updated (σ : ServerState) (lid : Option String)
    (D : Json) (hauth : authorize_mutation σ.lock_info lid = Except.ok true)
    (hD : D ≠ Json.null) (f : FileData) (hf : σ.state_file = some f) :
    update_state lid (some D) false σ =
      (Outcome.pythonError,
        { σ with state_store := some D, state_file := some FileData.corrupt }) ∧
    delete_state lid false σ =
      (Outcome.pythonError, { σ with state_store := none, state_file := some f }) := by
  have hu := update_state_auth σ lid (some D) false hauth
  have hd := delete_state_auth σ lid false hauth
  constructor
  · rw [hu]
    simp [update_state_body, toStore_ne_null D hD, save_state_fail_write]
  · rw [hd]
    simp [delete_state_body, hf, save_state_fail_unlink]

/-- Witness for C2's amended theorem: unlocked server, existing state
file, Put of a one-field document and Delete, both with failing disk. -/
theorem C2_witness :
    update_state none (some (Json.obj [("version", Json.num 4)])) false
        ⟨some (Json.obj []), none, some (FileData.valid (Json.obj [])), none⟩ =
      (Outcome.pythonError,
        ⟨some (Json.obj [("version", Json.num 4)]), none,
          some FileData.corrupt, none⟩) ∧
    delete_state none false
        ⟨some (Json.obj []), none, some (FileData.valid (Json.obj [])), none⟩ =
      (Outcome.pythonError,
        ⟨none, none, some (FileData.valid (Json.obj [])), none⟩) :=
  C2_write_failure_memory_updated
    ⟨some (Json.obj []), none, some (FileData.valid (Json.obj [])), none⟩
    none (Json.obj [("version", Json.num 4)]) rfl
    (fun h => Json.noConfusion h) (FileData.valid (Json.obj [])) rfl

/-- C5: an unlocked Put of a state document (a JSON object) followed
by a Get returns 200 and exactly the document that was put, with
structural equality. -/
theorem C5_put_get_roundtrip (σ : ServerState) (D : Json)
    (hD : isObj D = true) (hli : σ.lock_info = none) :
    (update_state none (some D) true σ).1 = Outcome.response 200 ∧
    get_state (update_state none (some D) true σ).2 =
      Outcome.jsonResponse 200 D := by
  have hauth : authorize_mutation σ.lock_info none = Except.ok true := by
    rw [hli]
    rfl
  have hu := update_state_auth σ none (some D) true hauth
  rw [hu, update_state_body_ok, toStore_obj D hD]
  exact ⟨rfl, rfl⟩

/-- Witness for C5: a fresh server, putting a document with one
resource entry and reading it back. -/
theorem C5_witness :
    (update_state none
        (some (Json.obj [("version", Json.num 4), ("resources", Json.arr [])]))
        true ⟨none, none, none, none⟩).1 = Outcome.response 200 ∧
    get_state (update_state none
        (some (Json.obj [("version", Json.num 4), ("resources", Json.arr [])]))
        true ⟨none, none, none, none⟩).2 =
      Outcome.jsonResponse 200
        (Json.obj [("version", Json.num 4), ("resources", Json.arr [])]) :=
  C5_put_get_roundtrip ⟨none, none, none, none⟩
    (Json.obj [("version", Json.num 4), ("resources", Json.arr [])]) rfl rfl

/-- C6: for a well-formed lock slot, the extracted AuthorizeMutation
check answers true exactly when no lock is held or the presented
identifier equals the held record's ID, and whenever a lock is held a
missing presented identifier is refused. -/
theorem C6_authorize_mutation_correct (li : Option Json) (hwf : lockWF li)
    (p : Option String) :
    (authorize_mutation li p = Except.ok true ↔ authCond li p) ∧
    (∀ l, li = some l → authorize_mutation li none = Except.ok false) := by
  constructor
  · exact (authCond_iff li p hwf).symm
  · intro l hl
    rw [hl] at hwf ⊢
    rw [lockWF_some] at hwf
    obtain ⟨s, hg⟩ := hwf
    rw [authorize_mutation_wf l s hg]
    rfl

/-- Witness for C6: a held lock with ID a, presented identifier a. -/
theorem C6_witness :
    (authorize_mutation (some (Json.obj [("ID", Json.str "a")])) (some "a") =
        Except.ok true ↔
      authCond (some (Json.obj [("ID", Json.str "a")])) (some "a")) ∧
    (∀ l, some (Json.obj [("ID", Json.str "a")]) = some l →
      authorize_mutation (some (Json.obj [("ID", Json.str "a")])) none =
        Except.ok false) :=
  C6_authorize_mutation_correct (some (Json.obj [("ID", Json.str "a")]))
    ⟨"a", rfl⟩ (some "a")

/-- C7: loading a durable slot at startup (both globals start as None)
yields absence when the file does not exist, and yields absence rather
than failing when the file exists but is corrupt or unreadable, for
the state slot and the lock slot alike. -/
theorem C7_load_absent_or_corrupt :
    load_state none none = none ∧ load_lock none none = none ∧
    (∀ cur, load_state (some FileData.corrupt) cur = none) ∧
    (∀ cur, load_lock (some FileData.corrupt) cur = none) :=
  ⟨rfl, rfl, fun _ => rfl, fun _ => rfl⟩

/-- C9: an authorized Put whose body is the JSON value null returns
200, clears the in-memory document, removes the durable state record,
and a subsequent Get answers 404. -/
theorem C9_put_null_deletes (σ : ServerState) (lid : Option String)
    (hauth : authorize_mutation σ.lock_info lid = Except.ok true) :
    update_state lid (some Json.null) true σ =
      (Outcome.response 200, { σ with state_store := none, state_file := none }) ∧
    get_state { σ with state_store := none, state_file := none } =
      Outcome.httpException 404 "State not found" := by
  have hu := update_state_auth σ lid (some Json.null) true hauth
  rw [hu, update_state_body_ok]
  exact ⟨rfl, rfl⟩

/-- Witness for C9: an unlocked server with an existing document and
an existing durable record, hit by Put(null). -/
theorem C9_witness :
    update_state none (some Json.null) true
        ⟨some (Json.obj [("version", Json.num 4)]), none,
          some (FileData.valid (Json.obj [("version", Json.num 4)])), none⟩ =
      (Outcome.response 200, ⟨none, none, none, none⟩) ∧
    get_state ⟨none, none, none, none⟩ =
      Outcome.httpException 404 "State not found" :=
  C9_put_null_deletes
    ⟨some (Json.obj [("version", Json.num 4)]), none,
      some (FileData.valid (Json.obj [("version", Json.num 4)])), none⟩
    none rfl

/-- Conclusion of claim C3 for one state and one acquire call with
candidate record c carrying ID b: acquisition succeeds (record stored
and persisted, 200 returned) when no lock is held or the held ID
equals b, and answers 423 with the current record, unmodified, when
the IDs differ. -/
def C3concl (σ : ServerState) (c : Json) (b : String) : Prop :=
  (σ.lock_info = none →
    lock_state (some c) true σ =
      (Outcome.response 200,
        { σ with lock_info := some c, lock_file := some (FileData.valid c) })) ∧
  (∀ cur a, σ.lock_info = some cur →
    pyGet cur "ID" = Except.ok (some (Json.str a)) →
    (a = b →
      lock_state (some c) true σ =
        (Outcome.response 200,
          { σ with lock_info := some c,
                   lock_file := some (FileData.valid c) })) ∧
    (a ≠ b → lock_state (some c) true σ = (Outcome.jsonResponse 423 cur, σ)))

/-- C3: TryAcquire's full case analysis — unheld lock: candidate
stored and persisted, 200; held with equal ID: candidate re-stored
(metadata update), 200; held with different ID: 423 whose body is the
current record unmodified, state unchanged. -/
theorem C3_try_acquire_cases (σ : ServerState) (c : Json) (b : String)
    (hc : pyGet c "ID" = Except.ok (some (Json.str b))) : C3concl σ c b := by
  have hobj := pyGet_ok_isObj c "ID" _ hc
  have hts : toStore c = some c := toStore_obj c hobj
  constructor
  · intro hli
    simp [lock_state, hli, lock_state_store_ok c σ hts]
  · intro cur a hli hcur
    constructor
    · intro hab
      subst hab
      simp [lock_state, hli, hcur, hc, pyEqOpt_str,
        lock_state_store_ok c σ hts]
    · intro hab
      have hb : (a == b) = false := by
        simp [hab]
      simp [lock_state, hli, hcur, hc, pyEqOpt_str, hb]

/-- A state holding the lock record with ID a, used to witness C3. -/
def C3wit : ServerState :=
  ⟨none, some (Json.obj [("ID", Json.str "a")]),
    none, some (FileData.valid (Json.obj [("ID", Json.str "a")]))⟩

/-- Witness for C3: re-acquiring with the same ID a and conflicting
with a different candidate both behave as stated. -/
theorem C3_witness : C3concl C3wit (Json.obj [("ID", Json.str "a")]) "a" :=
  C3_try_acquire_cases C3wit (Json.obj [("ID", Json.str "a")]) "a" rfl

/-- Conclusion of claim C4 for one state and one release call with
candidate record c: releasing an unheld lock is a no-op success;
releasing with the matching ID clears and persists the record and
returns 200; releasing with a different ID answers 409 with the fixed
generic payload (never the current record), leaves the state
unchanged, and a subsequent release with the correct ID succeeds. -/
def C4concl (σ : ServerState) (c : Json) : Prop :=
  (σ.lock_info = none →
    unlock_state (some c) true σ =
      (Outcome.response 200, { σ with lock_info := none, lock_file := none })) ∧
  (∀ cur a b, σ.lock_info = some cur →
    pyGet cur "ID" = Except.ok (some (Json.str a)) →
    pyGet c "ID" = Except.ok (some (Json.str b)) →
    (a = b →
      unlock_state (some c) true σ =
        (Outcome.response 200,
          { σ with lock_info := none, lock_file := none })) ∧
    (a ≠ b →
      unlock_state (some c) true σ =
        (Outcome.jsonResponse 409
          (Json.obj [("error", Json.str "Lock ID mismatch")]), σ) ∧
      ∀ c2, pyGet c2 "ID" = Except.ok (some (Json.str a)) →
        (unlock_state (some c2) true σ).1 = Outcome.response 200))

/-- C4: TryRelease's full case analysis — unheld: no-op success; held
with matching ID: record cleared, clearing persisted, 200; held with
different ID: 409 with the generic mismatch payload that does not
disclose the current record, lock still held, and a later correct-ID
release still succeeds. -/
theorem C4_try_release_cases (σ : ServerState) (c : Json) : C4concl σ c := by
  constructor
  · intro hli
    simp [unlock_state, hli, unlock_clear_ok]
  · intro cur a b hli hcur hc
    constructor
    · intro hab
      subst hab
      simp [unlock_state, hli, hcur, hc, pyEqOpt_str, unlock_clear_ok]
    · intro hab
      have hb : (a == b) = false := by
        simp [hab]
      refine ⟨by simp [unlock_state, hli, hcur, hc, pyEqOpt_str, hb], ?_⟩
      intro c2 hc2
      simp [unlock_state, hli, hcur, hc2, pyEqOpt_str, unlock_clear_ok]

/-- A state holding the lock record with ID a, used to witness C4. -/
def C4wit : ServerState :=
  ⟨none, some (Json.obj [("ID", Json.str "a")]),
    none, some (FileData.valid (Json.obj [("ID", Json.str "a")]))⟩

/-- Witness for C4: releasing the held lock with candidate ID b. -/
theorem C4_witness : C4concl C4wit (Json.obj [("ID", Json.str "b")]) :=
  C4_try_release_cases C4wit (Json.obj [("ID", Json.str "b")])

/-- C8 counterexample: the JSON value null is valid JSON and not an
object, yet a LOCK with body null while no lock is held leaves the
lock slot empty (Python None is stored) rather than storing a lock
record, and a subsequent POST succeeds with 200 instead of raising an
unhandled error. -/
theorem C8_counterexample :
    isObj Json.null = false ∧
    lock_state (some Json.null) true ⟨none, none, none, none⟩ =
      (Outcome.response 200, ⟨none, none, none, none⟩) ∧
    (update_state none (some (Json.obj [("version", Json.num 4)])) true
        (lock_state (some Json.null) true ⟨none, none, none, none⟩).2).1 =
      Outcome.response 200 :=
  ⟨rfl, rfl, rfl⟩

/-- Conclusion of claim C8 as amended, for a non-object JSON value v:
LOCK and UNLOCK with body v while a lock is held raise an unhandled
error and change nothing (this includes v = null, where None.get
raises); LOCK with body v while unlocked stores v as the lock record
when v is not null, and stores Python None for v = null, leaving the
service unlocked; and once the lock slot holds v, POST, DELETE, and
LOCK/UNLOCK with any valid body all raise an unhandled error and
change nothing. -/
def C8concl (v : Json) (σ1 : ServerState) (w1 : Bool) (σ2 σ3 : ServerState)
    (lid : Option String) (bo : Option Json) (b : Json) (w3 : Bool) : Prop :=
  lock_state (some v) w1 σ1 = (Outcome.pythonError, σ1) ∧
  unlock_state (some v) w1 σ1 = (Outcome.pythonError, σ1) ∧
  (v ≠ Json.null →
    lock_state (some v) true σ2 =
      (Outcome.response 200,
        { σ2 with lock_info := some v, lock_file := some (FileData.valid v) })) ∧
  (v = Json.null →
    lock_state (some v) true σ2 =
      (Outcome.response 200,
        { σ2 with lock_info := none, lock_file := none })) ∧
  update_state lid bo w3 σ3 = (Outcome.pythonError, σ3) ∧
  delete_state lid w3 σ3 = (Outcome.pythonError, σ3) ∧
  lock_state (some b) w3 σ3 = (Outcome.pythonError, σ3) ∧
  unlock_state (some b) w3 σ3 = (Outcome.pythonError, σ3)

/-- C8 as amended: for every valid-JSON non-object body v, null
included — while a lock is held, LOCK and UNLOCK with body v call
.get on a non-dict (or on None, for v = null) and raise an unhandled
AttributeError; while no lock is held, LOCK stores v as the lock
record unless v is null, in which case Python None is stored and the
service stays unlocked; and with a non-object value in the lock slot
every lock-consulting operation (POST and DELETE with any body, LOCK
and UNLOCK with any valid body) raises an unhandled error. -/
theorem C8_nonobject_bodies (v : Json) (hv : isObj v = false)
    (σ1 : ServerState) (cur : Json) (h1 : σ1.lock_info = some cur) (w1 : Bool)
    (σ2 : ServerState) (h2 : σ2.lock_info = none)
    (σ3 : ServerState) (h3 : σ3.lock_info = some v)
    (lid : Option String) (bo : Option Json) (b : Json) (w3 : Bool) :
    C8concl v σ1 w1 σ2 σ3 lid bo b w3 := by
  have hvE := pyGet_nonobj v hv
  refine ⟨?_, ?_, ?_, ?_, ?_, ?_, ?_, ?_⟩
  · cases hg : pyGet cur "ID" with
    | error e => simp [lock_state, h1, hg]
    | ok r => simp [lock_state, h1, hg, hvE]
  · cases hg : pyGet cur "ID" with
    | error e => simp [unlock_state, h1, hg]
    | ok r => simp [unlock_state, h1, hg, hvE]
  · intro hvn
    simp [lock_state, h2, lock_state_store_ok v σ2 (toStore_ne_null v hvn)]
  · intro hvnull
    subst hvnull
    simp [lock_state, h2, lock_state_store, toStore, save_lock_true]
  · simp [update_state, h3, hvE]
  · simp [delete_state, h3, hvE]
  · simp [lock_state, h3, hvE]
  · simp [unlock_state, h3, hvE]

/-- Witness for C8's amended theorem: v is the string x, first against
a held lock with ID a, then stored from an unlocked server, then as
the held lock value hit by POST, DELETE, LOCK, and UNLOCK. -/
theorem C8_witness :
    C8concl (Json.str "x")
      ⟨none, some (Json.obj [("ID", Json.str "a")]), none, none⟩ true
      ⟨none, none, none, none⟩
      ⟨none, some (Json.str "x"), none, some (FileData.valid (Json.str "x"))⟩
      none (some (Json.obj [])) (Json.obj [("ID", Json.str "b")]) true :=
  C8_nonobject_bodies (Json.str "x") rfl
    ⟨none, some (Json.obj [("ID", Json.str "a")]), none, none⟩
    (Json.obj [("ID", Json.str "a")]) rfl true
    ⟨none, none, none, none⟩ rfl
    ⟨none, some (Json.str "x"), none, some (FileData.valid (Json.str "x"))⟩ rfl
    none (some (Json.obj [])) (Json.obj [("ID", Json.str "b")]) true

theorem update_state_body_frame (body : Option Json) (w : Bool)
    (σ : ServerState) :
    (update_state_body body w σ).2.lock_info = σ.lock_info ∧
    (update_state_body body w σ).2.lock_file = σ.lock_file := by
  unfold update_state_body
  split
  · exact ⟨rfl, rfl⟩
  · split <;> exact ⟨rfl, rfl⟩

theorem delete_state_body_frame (w : Bool) (σ : ServerState) :
    (delete_state_body w σ).2.lock_info = σ.lock_info ∧
    (delete_state_body w σ).2.lock_file = σ.lock_file := by
  unfold delete_state_body
  split <;> exact ⟨rfl, rfl⟩

theorem lock_state_store_frame (nl : Json) (w : Bool) (σ : ServerState) :
    (lock_state_store nl w σ).2.state_store = σ.state_store ∧
    (lock_state_store nl w σ).2.state_file = σ.state_file := by
  unfold lock_state_store
  split <;> exact ⟨rfl, rfl⟩

theorem unlock_clear_frame (w : Bool) (σ : ServerState) :
    (unlock_clear w σ).2.state_store = σ.state_store ∧
    (unlock_clear w σ).2.state_file = σ.state_file := by
  unfold unlock_clear
  split <;> exact ⟨rfl, rfl⟩

theorem update_state_frame (lid : Option String) (body : Option Json) (w : Bool)
    (σ : ServerState) :
    (update_state lid body w σ).2.lock_info = σ.lock_info ∧
    (update_state lid body w σ).2.lock_file = σ.lock_file := by
  unfold update_state
  split
  · split
    · exact ⟨rfl, rfl⟩
    · split
      · exact update_state_body_frame body w σ
      · exact ⟨rfl, rfl⟩
  · exact update_state_body_frame body w σ

theorem delete_state_frame (lid : Option String) (w : Bool) (σ : ServerState) :
    (delete_state lid w σ).2.lock_info = σ.lock_info ∧
    (delete_state lid w σ).2.lock_file = σ.lock_file := by
  unfold delete_state
  split
  · split
    · exact ⟨rfl, rfl⟩
    · split
      · exact delete_state_body_frame w σ
      · exact ⟨rfl, rfl⟩
  · exact delete_state_body_frame w σ

theorem lock_state_frame (body : Option Json) (w : Bool) (σ : ServerState) :
    (lock_state body w σ).2.state_store = σ.state_store ∧
    (lock_state body w σ).2.state_file = σ.state_file := by
  unfold lock_state
  split
  · exact ⟨rfl, rfl⟩
  · split
    · split
      · exact ⟨rfl, rfl⟩
      · split
        · exact ⟨rfl, rfl⟩
        · split
          · exact lock_state_store_frame _ _ _
          · exact ⟨rfl, rfl⟩
    · exact lock_state_store_frame _ _ _

theorem unlock_state_frame (body : Option Json) (w : Bool) (σ : ServerState) :
    (unlock_state body w σ).2.state_store = σ.state_store ∧
    (unlock_state body w σ).2.state_file = σ.state_file := by
  unfold unlock_state
  split
  · exact ⟨rfl, rfl⟩
  · split
    · split
      · exact ⟨rfl, rfl⟩
      · split
        · exact ⟨rfl, rfl⟩
        · split
          · exact unlock_clear_frame _ _
          · exact ⟨rfl, rfl⟩
    · exact unlock_clear_frame _ _

/-- C10: every LOCK and UNLOCK call, whatever its body, disk result
and outcome, leaves the state document and its durable file unchanged,
and every POST and DELETE call leaves the lock record and its durable
file unchanged. -/
theorem C10_frame_effects (σ : ServerState) (lid : Option String)
    (body : Option Json) (w : Bool) :
    (lock_state body w σ).2.state_store = σ.state_store ∧
    (lock_state body w σ).2.state_file = σ.state_file ∧
    (unlock_state body w σ).2.state_store = σ.state_store ∧
    (unlock_state body w σ).2.state_file = σ.state_file ∧
    (update_state lid body w σ).2.lock_info = σ.lock_info ∧
    (update_state lid body w σ).2.lock_file = σ.lock_file ∧
    (delete_state lid w σ).2.lock_info = σ.lock_info ∧
    (delete_state lid w σ).2.lock_file = σ.lock_file :=
  ⟨(lock_state_frame body w σ).1, (lock_state_frame body w σ).2,
    (unlock_state_frame body w σ).1, (unlock_state_frame body w σ).2,
    (update_state_frame lid body w σ).1, (update_state_frame lid body w σ).2,
    (delete_state_frame lid w σ).1, (delete_state_frame lid w σ).2⟩

end TfStub
